import Mathlib

/-!
Shallow embedding of the StreamSpace template generators:

* `scripts/generate-templates.py`   (remote pipeline, LinuxServer.io API) —
  embedded in namespace `StreamSpace.Templates`;
* `scripts/generate-from-catalog.py` (curated pipeline, local JSON catalog) —
  embedded in namespace `StreamSpace.Catalog`.

Python strings are modelled as Lean `String`; Python dictionaries with a
known key set are modelled as structures whose optional keys are `Option`
fields.  Python string methods used by the scripts (`replace`, `lower`,
`title`, `in`, slicing, `int()`) are re-implemented over `List Char` below
so that every definition is executable and amenable to proof.  Code that
can raise is modelled with `Except String` (the error text names the
Python exception).  File and network I/O is modelled by passing the
outcome of each external operation explicitly (a `Bool` per write, an
enumerated load result for the catalog source).
-/

namespace StreamSpace

/-! ## Python string primitives -/

/-- Models Python list/str prefix test: `leadsWith p l` is true when `p`
is an initial segment of `l`. -/
def leadsWith : List Char → List Char → Bool
  | [], _ => true
  | _ :: _, [] => false
  | p :: ps, c :: cs => p = c && leadsWith ps cs

/-- Fuel-driven worker for Python `str.replace`: replaces every
non-overlapping occurrence of `pat` left to right.  The fuel is the length
of the scanned list, which suffices because every step consumes at least
one character when `pat` is non-empty (all call sites use a non-empty
pattern, matching the scripts). -/
def replCharsAux (pat repl : List Char) : Nat → List Char → List Char
  | 0, l => l
  | _ + 1, [] => []
  | fuel + 1, c :: cs =>
    if leadsWith pat (c :: cs) = true then
      repl ++ replCharsAux pat repl fuel ((c :: cs).drop pat.length)
    else
      c :: replCharsAux pat repl fuel cs

/-- Models Python `s.replace(pat, repl)` for non-empty `pat`. -/
def pyReplace (s pat repl : String) : String :=
  ⟨replCharsAux pat.data repl.data s.data.length s.data⟩

/-- Models Python substring membership used as `pat in s` (worker on
character lists). -/
def isSubstr (pat : List Char) : List Char → Bool
  | [] => pat.isEmpty
  | c :: cs => leadsWith pat (c :: cs) || isSubstr pat cs

/-- Models the Python expression `pat in s` on strings. -/
def pyIn (pat s : String) : Bool := isSubstr pat.data s.data

/-- Models Python `s.lower()` (ASCII, which covers all catalog data). -/
def pyLower (s : String) : String := ⟨s.data.map Char.toLower⟩

/-- Models Python slicing `s[:n]`. -/
def pyTake (n : Nat) (s : String) : String := ⟨s.data.take n⟩

/-- Worker for Python `str.title()`: upper-cases a letter that follows a
non-letter, lower-cases a letter that follows a letter. -/
def titleChars : Bool → List Char → List Char
  | _, [] => []
  | prevAlpha, c :: cs =>
    if c.isAlpha then
      (if prevAlpha then c.toLower else c.toUpper) :: titleChars true cs
    else
      c :: titleChars false cs

/-- Models Python `s.title()` (ASCII). -/
def pyTitle (s : String) : String := ⟨titleChars false s.data⟩

/-- Decimal value of a digit string, most significant digit first. -/
def digitsToNat (cs : List Char) : Nat :=
  cs.foldl (fun n c => 10 * n + (c.toNat - 48)) 0

/-- Value of a non-empty all-digit character list, `none` otherwise. -/
def digitStrVal? (cs : List Char) : Option Nat :=
  if cs ≠ [] ∧ cs.all Char.isDigit then some (digitsToNat cs) else none

/-- Models Python `int(s)` on optionally signed decimal strings (the only
shape the scripts feed it; whitespace/underscore forms do not occur).
`none` models the `ValueError` that `int` raises otherwise. -/
def pyInt? (s : String) : Option Int :=
  match s.data with
  | [] => none
  | c :: cs =>
    if c = '-' then (digitStrVal? cs).map fun n => -(n : Int)
    else if c = '+' then (digitStrVal? cs).map fun n => (n : Int)
    else (digitStrVal? (c :: cs)).map fun n => (n : Int)

/-- Models Python `dict.get` on a literal string-keyed table (first match
wins; the script tables have pairwise distinct keys). -/
def lookupStr {α : Type} : List (String × α) → String → Option α
  | [], _ => none
  | (k, v) :: rest, key => if key = k then some v else lookupStr rest key

/-! ## Shared data model -/

/-- A CPU/memory pair, as in the scripts' `{"memory": ..., "cpu": ...}`
dictionaries. -/
structure Resources where
  memory : String
  cpu : String
deriving DecidableEq

/-- One environment variable record `{"name": ..., "value": ...}`. -/
structure EnvVar where
  name : String
  value : String
deriving DecidableEq

/-- One port record of the generated manifest. -/
structure PortSpec where
  name : String
  containerPort : Nat
  protocol : String
deriving DecidableEq

/-- The generated Template manifest.  Fields follow the dictionary built
by both scripts; `metadataLabels` is empty and `limits` is `none` in the
remote pipeline, which emits neither; `kasmvncPort` is the `port` entry of
the `kasmvnc` block (`none` models Python `None`). -/
structure Template where
  apiVersion : String
  kind : String
  metadataName : String
  metadataNamespace : String
  metadataLabels : List (String × String)
  displayName : String
  description : String
  category : String
  icon : String
  baseImage : String
  requests : Resources
  limits : Option Resources
  ports : List PortSpec
  env : List EnvVar
  volumeMounts : List (String × String)
  kasmvncEnabled : Bool
  kasmvncPort : Option Nat
  capabilities : List String
  tags : List String
deriving DecidableEq

/-! ## Remote pipeline: `scripts/generate-templates.py` -/

namespace Templates

/-- One record of the LinuxServer.io API response.  The script reads every
field with `image.get(...)`, so all fields are optional. -/
structure Image where
  name : Option String
  category : Option String
  description : Option String
deriving DecidableEq

/-- One value of the `SPECIAL_CONFIGS` table: every key is optional
(`skip` is read with `.get("skip", False)`). -/
structure SpecialConfig where
  description : Option String
  category : Option String
  resources : Option Resources
  skip : Option Bool
deriving DecidableEq

/-- `CATEGORY_MAP` from `generate-templates.py`, lines 32-71. -/
def CATEGORY_MAP : List (String × String) := [
  ("Network & DNS", "Networking"),
  ("Media Servers & Music", "Media"),
  ("Chat & Social", "Communication"),
  ("Monitoring", "Monitoring"),
  ("Audio Processing", "Audio & Video"),
  ("Family", "Lifestyle"),
  ("3D Printing", "Design & Graphics"),
  ("Media Management", "Media"),
  ("Music", "Media"),
  ("Finance", "Productivity"),
  ("3D Modeling", "Design & Graphics"),
  ("Science", "Science & Education"),
  ("Content Management", "Productivity"),
  ("Web Browser", "Web Browsers"),
  ("Books", "Productivity"),
  ("Documents", "Productivity"),
  ("Web Tools & Automation", "Automation"),
  ("Programming", "Development"),
  ("FTP", "File Management"),
  ("Downloaders", "File Management"),
  ("Storage & Monitoring", "System Utilities"),
  ("Games", "Gaming"),
  ("Media Requesters", "Media"),
  ("Administration & Storage", "System Utilities"),
  ("Machine Learning", "AI & ML"),
  ("RSS & Social", "Communication"),
  ("Remote Desktop & Security", "Remote Access"),
  ("Remote Desktop & Business", "Remote Access"),
  ("Home Automation", "Automation"),
  ("Media Tools", "Audio & Video"),
  ("Image Editor", "Design & Graphics"),
  ("Photos", "Design & Graphics"),
  ("Password Manager", "Security"),
  ("Video Editor", "Audio & Video"),
  ("Recipes", "Lifestyle"),
  ("Administration & Security", "Security"),
  ("IRC", "Communication"),
  ("Databases", "Development")]

/-- The `RESOURCE_DEFAULTS["default"]` entry. -/
def defaultResources : Resources := ⟨"2Gi", "1000m"⟩

/-- `RESOURCE_DEFAULTS` from `generate-templates.py`, lines 74-83. -/
def RESOURCE_DEFAULTS : List (String × Resources) := [
  ("Web Browsers", ⟨"2Gi", "1000m"⟩),
  ("Development", ⟨"4Gi", "2000m"⟩),
  ("Design & Graphics", ⟨"4Gi", "2000m"⟩),
  ("Audio & Video", ⟨"3Gi", "1500m"⟩),
  ("Gaming", ⟨"4Gi", "2000m"⟩),
  ("Productivity", ⟨"3Gi", "1500m"⟩),
  ("Media", ⟨"2Gi", "1000m"⟩),
  ("default", defaultResources)]

/-- `SPECIAL_CONFIGS` from `generate-templates.py`, lines 86-96. -/
def SPECIAL_CONFIGS : List (String × SpecialConfig) := [
  ("webtop",
    { description := some "Full Linux desktop environment accessible via web browser. Available in multiple distributions and desktop environments.",
      category := some "Desktop Environments",
      resources := some ⟨"4Gi", "2000m"⟩,
      skip := none }),
  ("kasm",
    { description := some "Kasm Workspaces platform for streaming containerized apps and desktops to the browser.",
      category := none,
      resources := none,
      skip := some true })]

/-- `normalize_category`, lines 111-113.  The argument is `Option String`
because Python allows passing `None` despite the annotation; the script
itself always passes a string (possibly empty). -/
def normalize_category (raw_category : Option String) : String :=
  let dflt : String :=
    match raw_category with
    | some s => if s = "" then "Uncategorized" else s
    | none => "Uncategorized"
  match raw_category with
  | some s => (lookupStr CATEGORY_MAP s).getD dflt
  | none => dflt

/-- `get_resources`, lines 116-120. -/
def get_resources (category image_name : String) : Resources :=
  match lookupStr SPECIAL_CONFIGS image_name with
  | some sc => sc.resources.getD defaultResources
  | none => (lookupStr RESOURCE_DEFAULTS category).getD defaultResources

/-- `should_skip`, lines 123-125. -/
def should_skip (image_name : String) : Bool :=
  ((lookupStr SPECIAL_CONFIGS image_name).map fun sc => sc.skip.getD false).getD false

/-- The desktop-like category list of line 142. -/
def desktopCategories : List String :=
  ["Web Browsers", "Design & Graphics", "Gaming", "Productivity", "Desktop Environments"]

/-- `generate_template`, lines 128-185 (remote pipeline).  Total: every
field is read with a default, so no entry can make it raise. -/
def generate_template (image : Image) : Template :=
  let name := pyReplace (pyLower (image.name.getD "")) "/" "-"
  let display_name := pyTitle (pyReplace (image.name.getD "Unknown") "linuxserver/" "")
  let raw_category := image.category.getD ""
  let category := normalize_category (some raw_category)
  let special := (lookupStr SPECIAL_CONFIGS (pyReplace name "linuxserver-" "")).getD
    ⟨none, none, none, none⟩
  let defaultDesc := image.description.getD (display_name ++ " containerized application")
  let description :=
    match special.description with
    | some d => if d = "" then defaultDesc else d
    | none => defaultDesc
  let resources := get_resources category name
  let kasmvnc_enabled :=
    pyIn "desktop" (pyLower description) || pyIn "gui" (pyLower description) ||
      decide (category ∈ desktopCategories)
  { apiVersion := "stream.streamspace.io/v1alpha1"
    kind := "Template"
    metadataName := pyReplace name "linuxserver-" ""
    metadataNamespace := "streamspace"
    metadataLabels := []
    displayName := display_name
    description := pyTake 500 description
    category := category
    icon := "https://raw.githubusercontent.com/linuxserver/docker-templates/master/linuxserver.io/img/"
      ++ pyReplace name "linuxserver-" "" ++ "-logo.png"
    baseImage := "lscr.io/linuxserver/" ++ pyReplace name "linuxserver-" "" ++ ":latest"
    requests := resources
    limits := none
    ports := [⟨if kasmvnc_enabled then "vnc" else "http",
               if kasmvnc_enabled then 3000 else 8080, "TCP"⟩]
    env := [⟨"PUID", "1000"⟩, ⟨"PGID", "1000"⟩, ⟨"TZ", "America/New_York"⟩]
    volumeMounts := [("user-home", "/config")]
    kasmvncEnabled := kasmvnc_enabled
    kasmvncPort := some (if kasmvnc_enabled then 3000 else 8080)
    capabilities := ["Network", "Clipboard"]
    tags := [pyReplace name "linuxserver-" "", pyLower category] }

/-- The per-entry body of the remote `main` loop (lines 251-266).  The
`Bool` paired with each image is the outcome of the `save_template` call
for that entry (`false` models an exception while writing; template
synthesis itself is total in this pipeline).  Exception text is
abstracted as a fixed placeholder. -/
structure RunState where
  generated : Nat
  skipped : Nat
  stderrLines : List String
deriving DecidableEq

/-- The stderr line printed at line 265:
`Error generating template for {name}: {e}`. -/
def errLine (e : Image × Bool) : String :=
  "Error generating template for " ++ pyLower (e.1.name.getD "") ++ ": <write failure>"

/-- One iteration of the remote `main` loop: skip check on the lowercased
raw name, then generate + save guarded by `try/except`. -/
def mainStep (st : RunState) (e : Image × Bool) : RunState :=
  let name := pyLower (e.1.name.getD "")
  if should_skip name then
    { st with skipped := st.skipped + 1 }
  else if e.2 then
    { st with generated := st.generated + 1 }
  else
    { st with skipped := st.skipped + 1,
              stderrLines := st.stderrLines ++ [errLine e] }

/-- An entry that the remote loop generates and saves: not skip-listed and
its write succeeds. -/
def entrySuccess (e : Image × Bool) : Bool :=
  !should_skip (pyLower (e.1.name.getD "")) && e.2

/-- An entry that reaches the `try` block and fails there. -/
def entryFailed (e : Image × Bool) : Bool :=
  !should_skip (pyLower (e.1.name.getD "")) && !e.2

/-- The remote `main` loop over all fetched images. -/
def mainLoopFrom (st : RunState) : List (Image × Bool) → RunState
  | [] => st
  | e :: es => mainLoopFrom (mainStep st e) es

/-- Outcome of `fetch_images` (lines 99-108): any network or parse failure
calls `sys.exit(1)`. -/
inductive FetchLoad
  | failed
  | ok (images : List (Image × Bool))

/-- Result of one remote run (default invocation, no `--category` filter,
no `--list-categories`). -/
structure RemoteRun where
  exitCode : Nat
  stderrLines : List String
deriving DecidableEq

/-- `main`, lines 205-271: fetch failure exits 1; otherwise the loop runs
over every image and the process finishes normally (exit code 0). -/
def main : FetchLoad → RemoteRun
  | .failed => { exitCode := 1, stderrLines := ["Error fetching images: <network error>"] }
  | .ok images =>
      let st := mainLoopFrom ⟨0, 0, []⟩ images
      { exitCode := 0, stderrLines := st.stderrLines }

end Templates

/-! ## Curated pipeline: `scripts/generate-from-catalog.py` -/

namespace Catalog

/-- One record of the curated catalog.  `name`, `displayName`,
`description` and `category` are read with `app[...]` and are required by
the Data Model; the remaining keys are read with `app.get(...)` (or a
membership test, for `env`) — except `resources`, which the script also
reads with `app["resources"]`. -/
structure App where
  name : String
  displayName : String
  description : String
  category : String
  resources : Option Resources
  kasmvnc : Option Bool
  port : Option Nat
  env : Option (List EnvVar)
deriving DecidableEq

/-- The CPU-limit derivation of line 71:
`str(int(resources["cpu"].replace("m", "")) * 2) + "m" if "m" in resources["cpu"] else resources["cpu"]`.
`none` models the `ValueError` raised by `int` when the string left after
removing every `"m"` is not an integer literal. -/
def cpuLimit? (cpu : String) : Option String :=
  if pyIn "m" cpu = true then
    (pyInt? (pyReplace cpu "m" "")).map fun i => toString (i * 2) ++ "m"
  else
    some cpu

/-- The Template dictionary literal of lines 49-92, given the entry, its
(required) resources and the already-derived CPU limit. -/
def curatedTemplate (app : App) (resources : Resources) (limit_cpu : String) : Template :=
  let name := app.name
  let kasmvnc_enabled := app.kasmvnc.getD true
  let port := app.port.getD (if kasmvnc_enabled then 3000 else 8080)
  let env_vars := ([⟨"PUID", "1000"⟩, ⟨"PGID", "1000"⟩, ⟨"TZ", "America/New_York"⟩] : List EnvVar)
    ++ app.env.getD []
  { apiVersion := "stream.streamspace.io/v1alpha1"
    kind := "Template"
    metadataName := name
    metadataNamespace := "streamspace"
    metadataLabels := [
      ("app.kubernetes.io/name", name),
      ("app.kubernetes.io/component", "template"),
      ("streamspace.io/category", pyReplace (pyReplace (pyLower app.category) " & " "-") " " "-")]
    displayName := app.displayName
    description := app.description
    category := app.category
    icon := "https://raw.githubusercontent.com/linuxserver/docker-templates/master/linuxserver.io/img/"
      ++ name ++ "-logo.png"
    baseImage := "lscr.io/linuxserver/" ++ name ++ ":latest"
    requests := resources
    limits := some ⟨resources.memory, limit_cpu⟩
    ports := [⟨if kasmvnc_enabled then "vnc" else "http", port, "TCP"⟩]
    env := env_vars
    volumeMounts := [("user-home", "/config")]
    kasmvncEnabled := kasmvnc_enabled
    kasmvncPort := if kasmvnc_enabled then some port else none
    capabilities := ["Network", "Clipboard"]
      ++ (if app.category ∈ (["Audio & Video", "Gaming"] : List String) then ["Audio"] else [])
    tags := [name, pyReplace (pyLower app.category) " " "-"] }

/-- `generate_template`, lines 25-94 (curated pipeline).  The `resources`
key is dereferenced unconditionally at line 31, so its absence raises
`KeyError`; an unparsable milli-CPU string raises `ValueError` at
line 71.  Both exceptions are modelled as `Except.error`. -/
def generate_template (app : App) : Except String Template :=
  match app.resources with
  | none => .error "KeyError: resources"
  | some resources =>
    match cpuLimit? resources.cpu with
    | none => .error "ValueError: invalid literal for int() with base 10"
    | some limit_cpu => .ok (curatedTemplate app resources limit_cpu)

/-- The accumulator of the curated `main` loop (lines 150-161):
`generated` and the `categories` set (modelled as a duplicate-free list in
insertion order); the loop has no failure counter. -/
structure RunState where
  generated : Nat
  categories : List String
  stderrLines : List String
deriving DecidableEq

/-- Insertion into the Python `set` of categories. -/
def insertSet (s : List String) (x : String) : List String :=
  if s.contains x then s else s ++ [x]

/-- The exception text printed for a failing entry: the synthesis error
when `generate_template` raises, else the (abstracted) write error. -/
def errText (e : App × Bool) : String :=
  match generate_template e.1 with
  | .error msg => msg
  | .ok _ => "<write failure>"

/-- The stderr line printed at line 161:
`✗ Error generating template for {name}: {e}`. -/
def errLine (e : App × Bool) : String :=
  "✗ Error generating template for " ++ e.1.name ++ ": " ++ errText e

/-- An entry that the curated loop generates and saves successfully. -/
def entrySuccess (e : App × Bool) : Bool :=
  (generate_template e.1).isOk && e.2

/-- One iteration of the curated `main` loop (lines 153-161): generate,
save, record the category, bump `generated`; any exception is caught,
printed to stderr and the loop moves on.  The `Bool` is the outcome of
`save_template` for that entry. -/
def mainStep (st : RunState) (e : App × Bool) : RunState :=
  match generate_template e.1 with
  | .error _ =>
      { st with stderrLines := st.stderrLines ++ [errLine e] }
  | .ok t =>
      if e.2 then
        { generated := st.generated + 1,
          categories := insertSet st.categories t.category,
          stderrLines := st.stderrLines }
      else
        { st with stderrLines := st.stderrLines ++ [errLine e] }

/-- The curated `main` loop over all catalog entries. -/
def mainLoopFrom (st : RunState) : List (App × Bool) → RunState
  | [] => st
  | e :: es => mainLoopFrom (mainStep st e) es

/-- Outcome of `load_catalog` (lines 18-22) as observed by `main`:
`FileNotFoundError`, any other exception, or the entry list. -/
inductive CatalogLoad
  | missing
  | malformed
  | ok (apps : List (App × Bool))

/-- Observable result of one curated run: exit code, stderr, and the
directories created by `main` itself (line 148 creates the output
directory only after the catalog has loaded; the per-category
subdirectories made inside `save_template` are not modelled). -/
structure CuratedRun where
  exitCode : Nat
  stderrLines : List String
  dirsCreated : List String
deriving DecidableEq

/-- `main`, lines 120-172: a load failure prints one error line and exits
with code 1 before the output directory is created; otherwise the loop
runs over every entry and the process finishes normally (exit code 0). -/
def main (catalogPath outputDir : String) : CatalogLoad → CuratedRun
  | .missing =>
      { exitCode := 1,
        stderrLines := ["Error: Catalog file not found: " ++ catalogPath],
        dirsCreated := [] }
  | .malformed =>
      { exitCode := 1,
        stderrLines := ["Error loading catalog: <parse error>"],
        dirsCreated := [] }
  | .ok apps =>
      let st := mainLoopFrom ⟨0, [], []⟩ apps
      { exitCode := 0,
        stderrLines := st.stderrLines,
        dirsCreated := [outputDir] }

end Catalog

/-! ## Concrete fixtures and claim-side (spec-worded) definitions -/

/-- A well-formed curated entry with all optional fields present or
defaulted (from the spec's §8 scenario). -/
def fxFirefox : Catalog.App :=
  ⟨"firefox", "Firefox", "Web browser", "Web Browsers", some ⟨"2Gi", "1000m"⟩, none, none, none⟩

/-- The same entry with the optional `resources` field omitted. -/
def fxNoResources : Catalog.App :=
  ⟨"firefox", "Firefox", "Web browser", "Web Browsers", none, none, none, none⟩

/-- A curated entry in an ampersand category. -/
def fxAudio : Catalog.App :=
  ⟨"x", "X", "d", "Audio & Video", some ⟨"2Gi", "1000m"⟩, none, none, none⟩

/-- A curated entry whose CPU string contains `m` but not as a
`"<n>m"` suffix. -/
def fxOddCpu : Catalog.App :=
  ⟨"x", "X", "d", "Media", some ⟨"2Gi", "5m5"⟩, none, none, none⟩

/-- A curated entry with a CPU request that contains no `m` at all. -/
def fxPlainCpu : Catalog.App :=
  ⟨"y", "Y", "d", "Media", some ⟨"3Gi", "2.5"⟩, none, none, none⟩

/-- A curated entry that omits the `resources` field, under a name that
identifies it in error messages. -/
def fxBroken : Catalog.App :=
  ⟨"broken", "Broken", "d", "Media", none, none, none, none⟩

/-- A curated entry with remote display disabled and an explicit port
override. -/
def fxPortOverride : Catalog.App :=
  ⟨"code-server", "Code", "IDE", "Development", some ⟨"4Gi", "2000m"⟩, some false, some 8443, none⟩

/-- The spec's §8 remote scenario entry. -/
def fxHeimdall : Templates.Image :=
  ⟨some "linuxserver/heimdall", some "Network & DNS", some "dashboard"⟩

/-- A remote entry whose lowercased raw name is a special-config key only
after slash conversion and prefix stripping. -/
def fxKasm : Templates.Image := ⟨some "linuxserver/kasm", none, none⟩

/-- A remote entry whose name contains `linuxserver-` not as a leading
prefix. -/
def fxSlashName : Templates.Image := ⟨some "a/linuxserver-x", none, none⟩

/-- Claim-side definition, worded as C4 states it: the curated tag slug
is the category with `" & "` replaced by `"-"`, spaces replaced by `"-"`,
and lowercased. -/
def claimedCuratedSlug (category : String) : String :=
  pyLower (pyReplace (pyReplace category " & " "-") " " "-")

/-- Claim-side definition, worded as C6 states it: lowercase the source
name, replace every `"/"` by `"-"`, then strip a `linuxserver-` prefix
only when it is leading. -/
def claimedRemoteName (source : String) : String :=
  let low := pyReplace (pyLower source) "/" "-"
  if leadsWith "linuxserver-".data low.data = true then
    ⟨low.data.drop "linuxserver-".data.length⟩
  else low

/-! ## Supporting lemmas -/

lemma replCharsAux_nil (pat repl : List Char) : ∀ fuel, replCharsAux pat repl fuel [] = []
  | 0 => rfl
  | _ + 1 => rfl

lemma replCharsAux_digits_m (t : List Char) :
    ∀ fuel, t.length < fuel → (∀ c ∈ t, c.isDigit = true) →
      replCharsAux ['m'] [] fuel (t ++ ['m']) = t := by
  induction t with
  | nil =>
    intro fuel hf _
    cases fuel with
    | zero => omega
    | succ f => simp [replCharsAux, leadsWith, replCharsAux_nil]
  | cons c cs ih =>
    intro fuel hf hd
    cases fuel with
    | zero => omega
    | succ f =>
      have hc : c.isDigit = true := hd c (List.mem_cons_self c cs)
      have hne : ¬ ('m' = c) := by
        intro h
        rw [← h] at hc
        exact absurd hc (by decide)
      have hlw : leadsWith ['m'] (c :: (cs ++ ['m'])) = false := by
        simp [leadsWith, hne]
      have hrec := ih f (by simpa using Nat.lt_of_succ_lt_succ hf)
        (fun x hx => hd x (List.mem_cons_of_mem c hx))
      simp [replCharsAux, hlw, hrec]

/-- Removing every `"m"` from a digit string followed by a final `m`
yields exactly the digit string. -/
lemma pyReplace_digits_m (t : List Char) (hd : ∀ c ∈ t, c.isDigit = true) :
    pyReplace ⟨t ++ ['m']⟩ "m" "" = ⟨t⟩ := by
  show String.mk (replCharsAux "m".data "".data (t ++ ['m']).length (t ++ ['m'])) = ⟨t⟩
  have h1 : "m".data = ['m'] := rfl
  have h2 : "".data = ([] : List Char) := rfl
  rw [h1, h2, replCharsAux_digits_m t (t ++ ['m']).length (by simp) hd]

lemma isSubstr_m_append (t : List Char) : isSubstr ['m'] (t ++ ['m']) = true := by
  induction t with
  | nil => decide
  | cons c cs ih => simp [isSubstr, ih]

/-- A string ending in `m` passes the Python `"m" in s` test. -/
lemma pyIn_m_append (t : List Char) : pyIn "m" ⟨t ++ ['m']⟩ = true := by
  show isSubstr "m".data (t ++ ['m']) = true
  have h1 : "m".data = ['m'] := rfl
  rw [h1]
  exact isSubstr_m_append t

/-- `pyInt?` on a non-empty digit string returns its decimal value. -/
lemma pyInt_digits (t : List Char) (h1 : t ≠ []) (h2 : ∀ c ∈ t, c.isDigit = true) :
    pyInt? ⟨t⟩ = some ((digitsToNat t : Nat) : Int) := by
  cases t with
  | nil => exact absurd rfl h1
  | cons c cs =>
    have hc : c.isDigit = true := h2 c (List.mem_cons_self c cs)
    have hminus : ¬ (c = '-') := by
      intro h
      rw [h] at hc
      exact absurd hc (by decide)
    have hplus : ¬ (c = '+') := by
      intro h
      rw [h] at hc
      exact absurd hc (by decide)
    have hall : (c :: cs).all Char.isDigit = true :=
      List.all_eq_true.mpr (fun x hx => h2 x hx)
    simp [pyInt?, hminus, hplus, digitStrVal?, hall]

lemma cpuLimit_no_m (cpu : String) (h : pyIn "m" cpu = false) :
    Catalog.cpuLimit? cpu = some cpu := by
  simp [Catalog.cpuLimit?, h]

lemma cpuLimit_parse (cpu : String) (i : Int) (h : pyIn "m" cpu = true)
    (hp : pyInt? (pyReplace cpu "m" "") = some i) :
    Catalog.cpuLimit? cpu = some (toString (i * 2) ++ "m") := by
  simp [Catalog.cpuLimit?, h, hp]

lemma cpuLimit_isSome (cpu : String)
    (h : pyIn "m" cpu = true → (pyInt? (pyReplace cpu "m" "")).isSome = true) :
    ∃ lc, Catalog.cpuLimit? cpu = some lc := by
  cases hm : pyIn "m" cpu with
  | true =>
    obtain ⟨i, hi⟩ := Option.isSome_iff_exists.mp (h hm)
    exact ⟨toString (i * 2) ++ "m", cpuLimit_parse cpu i hm hi⟩
  | false => exact ⟨cpu, cpuLimit_no_m cpu hm⟩

/-- Reduction of the curated `generate_template` once `resources` is
present and the CPU limit derivation succeeds. -/
lemma generate_template_c_eq (app : Catalog.App) (r : Resources) (lc : String)
    (hres : app.resources = some r) (hlc : Catalog.cpuLimit? r.cpu = some lc) :
    Catalog.generate_template app = Except.ok (Catalog.curatedTemplate app r lc) := by
  simp [Catalog.generate_template, hres, hlc]

/-- Packaged success form of the curated `generate_template`. -/
lemma generate_template_c_run (app : Catalog.App) (r : Resources)
    (hres : app.resources = some r)
    (hcpu : pyIn "m" r.cpu = true → (pyInt? (pyReplace r.cpu "m" "")).isSome = true) :
    ∃ lc, Catalog.cpuLimit? r.cpu = some lc ∧
      Catalog.generate_template app = Except.ok (Catalog.curatedTemplate app r lc) := by
  obtain ⟨lc, hlc⟩ := cpuLimit_isSome r.cpu hcpu
  exact ⟨lc, hlc, generate_template_c_eq app r lc hres hlc⟩

lemma remote_step_generated (st : Templates.RunState) (e : Templates.Image × Bool) :
    (Templates.mainStep st e).generated
      = st.generated + (if Templates.entrySuccess e then 1 else 0) := by
  unfold Templates.mainStep Templates.entrySuccess
  cases h1 : Templates.should_skip (pyLower (e.1.name.getD "")) <;>
    cases h2 : e.2 <;> simp [h1, h2]

lemma remote_step_skipped (st : Templates.RunState) (e : Templates.Image × Bool) :
    (Templates.mainStep st e).skipped
      = st.skipped + (if Templates.entrySuccess e then 0 else 1) := by
  unfold Templates.mainStep Templates.entrySuccess
  cases h1 : Templates.should_skip (pyLower (e.1.name.getD "")) <;>
    cases h2 : e.2 <;> simp [h1, h2]

lemma remote_step_stderr (st : Templates.RunState) (e : Templates.Image × Bool) :
    (Templates.mainStep st e).stderrLines
      = st.stderrLines ++ (if Templates.entryFailed e then [Templates.errLine e] else []) := by
  unfold Templates.mainStep Templates.entryFailed
  cases h1 : Templates.should_skip (pyLower (e.1.name.getD "")) <;>
    cases h2 : e.2 <;> simp [h1, h2]

lemma remote_loop_generated (es : List (Templates.Image × Bool)) :
    ∀ st, (Templates.mainLoopFrom st es).generated
      = st.generated + (es.filter Templates.entrySuccess).length := by
  induction es with
  | nil => intro st; simp [Templates.mainLoopFrom]
  | cons e es ih =>
    intro st
    have hstep : Templates.mainLoopFrom st (e :: es)
        = Templates.mainLoopFrom (Templates.mainStep st e) es := rfl
    rw [hstep, ih, remote_step_generated, List.filter_cons]
    cases h : Templates.entrySuccess e <;> simp [h] <;> omega

lemma remote_loop_skipped (es : List (Templates.Image × Bool)) :
    ∀ st, (Templates.mainLoopFrom st es).skipped
      = st.skipped + (es.filter fun e => !Templates.entrySuccess e).length := by
  induction es with
  | nil => intro st; simp [Templates.mainLoopFrom]
  | cons e es ih =>
    intro st
    have hstep : Templates.mainLoopFrom st (e :: es)
        = Templates.mainLoopFrom (Templates.mainStep st e) es := rfl
    rw [hstep, ih, remote_step_skipped, List.filter_cons]
    cases h : Templates.entrySuccess e <;> simp [h] <;> omega

lemma remote_loop_stderr (es : List (Templates.Image × Bool)) :
    ∀ st, (Templates.mainLoopFrom st es).stderrLines
      = st.stderrLines ++ (es.filter Templates.entryFailed).map Templates.errLine := by
  induction es with
  | nil => intro st; simp [Templates.mainLoopFrom]
  | cons e es ih =>
    intro st
    have hstep : Templates.mainLoopFrom st (e :: es)
        = Templates.mainLoopFrom (Templates.mainStep st e) es := rfl
    rw [hstep, ih, remote_step_stderr, List.filter_cons]
    cases h : Templates.entryFailed e <;> simp [h]

lemma catalog_step_generated (st : Catalog.RunState) (e : Catalog.App × Bool) :
    (Catalog.mainStep st e).generated
      = st.generated + (if Catalog.entrySuccess e then 1 else 0) := by
  unfold Catalog.mainStep Catalog.entrySuccess
  cases hg : Catalog.generate_template e.1 with
  | error msg => simp [hg, Except.isOk, Except.toBool]
  | ok t => cases h2 : e.2 <;> simp [hg, h2, Except.isOk, Except.toBool]

lemma catalog_step_stderr (st : Catalog.RunState) (e : Catalog.App × Bool) :
    (Catalog.mainStep st e).stderrLines
      = st.stderrLines ++ (if Catalog.entrySuccess e then [] else [Catalog.errLine e]) := by
  unfold Catalog.mainStep Catalog.entrySuccess
  cases hg : Catalog.generate_template e.1 with
  | error msg => simp [hg, Except.isOk, Except.toBool]
  | ok t => cases h2 : e.2 <;> simp [hg, h2, Except.isOk, Except.toBool]

lemma catalog_loop_generated (es : List (Catalog.App × Bool)) :
    ∀ st, (Catalog.mainLoopFrom st es).generated
      = st.generated + (es.filter Catalog.entrySuccess).length := by
  induction es with
  | nil => intro st; simp [Catalog.mainLoopFrom]
  | cons e es ih =>
    intro st
    have hstep : Catalog.mainLoopFrom st (e :: es)
        = Catalog.mainLoopFrom (Catalog.mainStep st e) es := rfl
    rw [hstep, ih, catalog_step_generated, List.filter_cons]
    cases h : Catalog.entrySuccess e <;> simp [h] <;> omega

lemma catalog_loop_stderr (es : List (Catalog.App × Bool)) :
    ∀ st, (Catalog.mainLoopFrom st es).stderrLines
      = st.stderrLines ++ (es.filter fun e => !Catalog.entrySuccess e).map Catalog.errLine := by
  induction es with
  | nil => intro st; simp [Catalog.mainLoopFrom]
  | cons e es ih =>
    intro st
    have hstep : Catalog.mainLoopFrom st (e :: es)
        = Catalog.mainLoopFrom (Catalog.mainStep st e) es := rfl
    rw [hstep, ih, catalog_step_stderr, List.filter_cons]
    cases h : Catalog.entrySuccess e <;> simp [h]

/-! ## Claim theorems -/

/-- C1 (counterexample): the curated `generate_template` is not total on
entries that supply only the required fields — on an entry with `name`,
`displayName`, `description` and `category` but no `resources`, it raises
`KeyError` instead of substituting a default, contradicting the claim that
synthesis never raises when `resources` is absent. -/
theorem c1_counterexample :
    Catalog.generate_template fxNoResources = Except.error "KeyError: resources" := rfl

/-- C1 (amended): the curated `generate_template` additionally requires
the `resources` field (its absence raises `KeyError`); given an entry
whose `resources` is present and whose CPU string either contains no `m`
or still parses as an integer after removing every `m`, synthesis never
raises, with the remaining optional fields (`kasmvnc`, `port`, `env`)
defaulted. -/
theorem c1_total_given_resources (app : Catalog.App) (r : Resources)
    (hres : app.resources = some r)
    (hcpu : pyIn "m" r.cpu = true → (pyInt? (pyReplace r.cpu "m" "")).isSome = true) :
    (Catalog.generate_template app).isOk = true := by
  obtain ⟨lc, _, hok⟩ := generate_template_c_run app r hres hcpu
  rw [hok]
  rfl

/-- C1 (witness): the amended theorem applied to a concrete entry that
omits `kasmvnc`, `port` and `env`. -/
theorem c1_total_given_resources_witness :
    (Catalog.generate_template fxFirefox).isOk = true :=
  c1_total_given_resources fxFirefox ⟨"2Gi", "1000m"⟩ rfl (fun _ => by decide)

/-- C2: `normalize_category` maps every key of `CATEGORY_MAP` to exactly
its mapped value, returns any non-empty unmapped raw category unchanged
(an exact-match, case-sensitive lookup), and maps the empty string and
`None` to `"Uncategorized"`. -/
theorem c2_normalize_category_correct :
    (∀ p ∈ Templates.CATEGORY_MAP, Templates.normalize_category (some p.1) = p.2) ∧
    (∀ s : String, s ≠ "" → lookupStr Templates.CATEGORY_MAP s = none →
      Templates.normalize_category (some s) = s) ∧
    Templates.normalize_category (some "") = "Uncategorized" ∧
    Templates.normalize_category none = "Uncategorized" := by
  refine ⟨by decide, ?_, rfl, rfl⟩
  intro s hs hlk
  simp [Templates.normalize_category, hlk, hs]

/-- C2 (witness): a mapped key, and a lowercased variant of the same key
showing the case-sensitive pass-through. -/
theorem c2_normalize_category_witness :
    Templates.normalize_category (some "Network & DNS") = "Networking" ∧
    Templates.normalize_category (some "network & dns") = "network & dns" :=
  ⟨c2_normalize_category_correct.1 ("Network & DNS", "Networking") (by decide),
   c2_normalize_category_correct.2.1 "network & dns" (by decide) (by decide)⟩

/-- C3 (counterexample): the claim says a CPU request without a `"<n>m"`
suffix passes through unchanged, but the code tests `"m" in cpu` anywhere
and removes every `m`: for the request `"5m5"` (which does not end in
`m`) the derived limit is `"110m"`, not `"5m5"`. -/
theorem c3_counterexample :
    (Catalog.generate_template fxOddCpu).map Template.limits
      = Except.ok (some ⟨"2Gi", "110m"⟩) ∧
    "5m5".data.getLast? = some '5' ∧
    ("110m" : String) ≠ "5m5" := ⟨rfl, rfl, by decide⟩

/-- C3 (amended): in the curated limit derivation, a CPU request `"<n>m"`
(non-empty digits then `m`) yields the limit `"<2n>m"`; more generally any
request containing `m` has every `m` removed and the remaining integer
doubled with an `m` appended; a request containing no `m` passes through
unchanged; and the memory limit always equals the memory request. -/
theorem c3_cpu_limit_derivation (app : Catalog.App) (r : Resources)
    (hres : app.resources = some r) :
    (∀ t : List Char, t ≠ [] → (∀ c ∈ t, c.isDigit = true) → r.cpu = ⟨t ++ ['m']⟩ →
      (Catalog.generate_template app).map Template.limits
        = Except.ok (some ⟨r.memory, toString ((digitsToNat t : Int) * 2) ++ "m"⟩)) ∧
    (∀ i : Int, pyIn "m" r.cpu = true → pyInt? (pyReplace r.cpu "m" "") = some i →
      (Catalog.generate_template app).map Template.limits
        = Except.ok (some ⟨r.memory, toString (i * 2) ++ "m"⟩)) ∧
    (pyIn "m" r.cpu = false →
      (Catalog.generate_template app).map Template.limits
        = Except.ok (some ⟨r.memory, r.cpu⟩)) := by
  refine ⟨?_, ?_, ?_⟩
  · intro t ht hd hcpu
    have hm : pyIn "m" r.cpu = true := by
      rw [hcpu]; exact pyIn_m_append t
    have hp : pyInt? (pyReplace r.cpu "m" "") = some ((digitsToNat t : Nat) : Int) := by
      rw [hcpu, pyReplace_digits_m t hd]
      exact pyInt_digits t ht hd
    rw [generate_template_c_eq app r _ hres (cpuLimit_parse r.cpu _ hm hp)]
    rfl
  · intro i hm hp
    rw [generate_template_c_eq app r _ hres (cpuLimit_parse r.cpu i hm hp)]
    rfl
  · intro hm
    rw [generate_template_c_eq app r _ hres (cpuLimit_no_m r.cpu hm)]
    rfl

/-- C3 (witness): the amended theorem at `"1000m"` (doubled to
`"2000m"`) and at `"2.5"` (no `m`, passed through). -/
theorem c3_cpu_limit_derivation_witness :
    (Catalog.generate_template fxFirefox).map Template.limits
      = Except.ok (some ⟨"2Gi", "2000m"⟩) ∧
    (Catalog.generate_template fxPlainCpu).map Template.limits
      = Except.ok (some ⟨"3Gi", "2.5"⟩) := by
  constructor
  · exact ((c3_cpu_limit_derivation fxFirefox ⟨"2Gi", "1000m"⟩ rfl).1
      ['1', '0', '0', '0'] (by decide) (by decide) rfl).trans (by rfl)
  · exact (c3_cpu_limit_derivation fxPlainCpu ⟨"3Gi", "2.5"⟩ rfl).2.2 (by decide)

/-- C4 (counterexample): in the curated pipeline the tag slug does not
substitute `" & "` — for category `"Audio & Video"` the generated tag is
`"audio-&-video"`, not the claimed `"audio-video"`. -/
theorem c4_counterexample :
    (Catalog.generate_template fxAudio).map Template.tags
      = Except.ok ["x", "audio-&-video"] ∧
    claimedCuratedSlug "Audio & Video" = "audio-video" ∧
    ("audio-&-video" : String) ≠ "audio-video" := ⟨rfl, rfl, by decide⟩

/-- C4 (amended): the tag list is `[name, slug]` in both pipelines; the
curated slug lowercases the category and replaces spaces by `-` (keeping
any `&`), while the remote slug is the full canonical category lowercased
with no separator substitution. -/
theorem c4_tag_lists (app : Catalog.App) (r : Resources) (img : Templates.Image)
    (hres : app.resources = some r)
    (hcpu : pyIn "m" r.cpu = true → (pyInt? (pyReplace r.cpu "m" "")).isSome = true) :
    (Catalog.generate_template app).map Template.tags
      = Except.ok [app.name, pyReplace (pyLower app.category) " " "-"] ∧
    (Templates.generate_template img).tags
      = [(Templates.generate_template img).metadataName,
         pyLower (Templates.generate_template img).category] := by
  constructor
  · obtain ⟨lc, _, hok⟩ := generate_template_c_run app r hres hcpu
    rw [hok]
    rfl
  · rfl

/-- C4 (witness): the amended theorem at the firefox entry and the
heimdall remote entry. -/
theorem c4_tag_lists_witness :
    (Catalog.generate_template fxFirefox).map Template.tags
      = Except.ok ["firefox", "web-browsers"] ∧
    (Templates.generate_template fxHeimdall).tags = ["heimdall", "networking"] := by
  have h := c4_tag_lists fxFirefox ⟨"2Gi", "1000m"⟩ fxHeimdall rfl (fun _ => by decide)
  exact ⟨h.1.trans (by rfl), h.2.trans (by rfl)⟩

/-- C5 (counterexample): in the remote pipeline the `kasmvnc.port` value
is not null when remote display is disabled — for the heimdall entry
(disabled) it is `8080`. -/
theorem c5_counterexample :
    (Templates.generate_template fxHeimdall).kasmvncEnabled = false ∧
    (Templates.generate_template fxHeimdall).kasmvncPort = some 8080 ∧
    some 8080 ≠ (none : Option Nat) := ⟨rfl, rfl, by decide⟩

/-- C5 (amended): both pipelines emit a remote-display block with the
enabled flag and a port; the curated pipeline sets the port to null
exactly when disabled, while the remote pipeline always sets a port —
3000 when enabled, 8080 when disabled. -/
theorem c5_kasmvnc_block (app : Catalog.App) (r : Resources) (img : Templates.Image)
    (hres : app.resources = some r)
    (hcpu : pyIn "m" r.cpu = true → (pyInt? (pyReplace r.cpu "m" "")).isSome = true) :
    (Catalog.generate_template app).map (fun t => (t.kasmvncEnabled, t.kasmvncPort))
      = Except.ok (app.kasmvnc.getD true,
          if app.kasmvnc.getD true then some (app.port.getD 3000) else none) ∧
    (Templates.generate_template img).kasmvncPort
      = some (if (Templates.generate_template img).kasmvncEnabled then 3000 else 8080) := by
  constructor
  · obtain ⟨lc, _, hok⟩ := generate_template_c_run app r hres hcpu
    rw [hok]
    cases he : app.kasmvnc.getD true <;> simp [Catalog.curatedTemplate, he, Except.map]
  · rfl

/-- C5 (witness): the amended theorem at a disabled curated entry (null
port) and the kasm remote entry (enabled, port 3000). -/
theorem c5_kasmvnc_block_witness :
    (Catalog.generate_template fxPortOverride).map (fun t => (t.kasmvncEnabled, t.kasmvncPort))
      = Except.ok (false, none) ∧
    (Templates.generate_template fxKasm).kasmvncPort = some 3000 := by
  have h := c5_kasmvnc_block fxPortOverride ⟨"4Gi", "2000m"⟩ fxKasm rfl (fun _ => by decide)
  exact ⟨h.1.trans (by rfl), h.2.trans (by rfl)⟩

/-- C6 (counterexample): the remote pipeline strips every occurrence of
`"linuxserver-"`, not only a leading prefix: the source name
`"a/linuxserver-x"` becomes `"a-x"`, while leading-prefix stripping as
claimed would leave `"a-linuxserver-x"`. -/
theorem c6_counterexample :
    (Templates.generate_template fxSlashName).metadataName = "a-x" ∧
    claimedRemoteName "a/linuxserver-x" = "a-linuxserver-x" ∧
    ("a-x" : String) ≠ "a-linuxserver-x" := ⟨rfl, rfl, by decide⟩

/-- C6 (amended): in the remote pipeline `metadata.name` is the source
name lowercased, with every `/` replaced by `-` and every occurrence of
`"linuxserver-"` removed (not only a leading one); the curated pipeline
uses the source name verbatim. -/
theorem c6_metadata_name (app : Catalog.App) (r : Resources)
    (img : Templates.Image) (s : String)
    (hres : app.resources = some r)
    (hcpu : pyIn "m" r.cpu = true → (pyInt? (pyReplace r.cpu "m" "")).isSome = true)
    (hname : img.name = some s) :
    (Catalog.generate_template app).map Template.metadataName = Except.ok app.name ∧
    (Templates.generate_template img).metadataName
      = pyReplace (pyReplace (pyLower s) "/" "-") "linuxserver-" "" := by
  constructor
  · obtain ⟨lc, _, hok⟩ := generate_template_c_run app r hres hcpu
    rw [hok]
    rfl
  · simp [Templates.generate_template, hname]

/-- C6 (witness): the amended theorem at the firefox entry (verbatim
name) and the heimdall remote entry (prefix stripped). -/
theorem c6_metadata_name_witness :
    (Catalog.generate_template fxFirefox).map Template.metadataName
      = Except.ok "firefox" ∧
    (Templates.generate_template fxHeimdall).metadataName = "heimdall" := by
  have h := c6_metadata_name fxFirefox ⟨"2Gi", "1000m"⟩ fxHeimdall
    "linuxserver/heimdall" rfl (fun _ => by decide) rfl
  exact ⟨h.1.trans (by rfl), h.2.trans (by rfl)⟩

/-- C7: every synthesized template has exactly one port entry with
protocol TCP; its name is `"vnc"` when remote display is enabled and
`"http"` when disabled; its container port is 3000/8080 accordingly,
except that a curated entry's explicit `port` field overrides the
container port value. -/
theorem c7_port_list (app : Catalog.App) (r : Resources) (img : Templates.Image)
    (hres : app.resources = some r)
    (hcpu : pyIn "m" r.cpu = true → (pyInt? (pyReplace r.cpu "m" "")).isSome = true) :
    (Catalog.generate_template app).map (fun t => (t.kasmvncEnabled, t.ports))
      = Except.ok (app.kasmvnc.getD true,
          [⟨if app.kasmvnc.getD true then "vnc" else "http",
            app.port.getD (if app.kasmvnc.getD true then 3000 else 8080), "TCP"⟩]) ∧
    (Templates.generate_template img).ports
      = [⟨if (Templates.generate_template img).kasmvncEnabled then "vnc" else "http",
          if (Templates.generate_template img).kasmvncEnabled then 3000 else 8080, "TCP"⟩] := by
  constructor
  · obtain ⟨lc, _, hok⟩ := generate_template_c_run app r hres hcpu
    rw [hok]
    rfl
  · rfl

/-- C7 (witness): the theorem at a curated entry with an explicit port
override (disabled, port 8443 → `http`/8443) and at the heimdall remote
entry (disabled → `http`/8080). -/
theorem c7_port_list_witness :
    (Catalog.generate_template fxPortOverride).map (fun t => (t.kasmvncEnabled, t.ports))
      = Except.ok (false, [⟨"http", 8443, "TCP"⟩]) ∧
    (Templates.generate_template fxHeimdall).ports = [⟨"http", 8080, "TCP"⟩] := by
  have h := c7_port_list fxPortOverride ⟨"4Gi", "2000m"⟩ fxHeimdall rfl (fun _ => by decide)
  exact ⟨h.1.trans (by rfl), h.2.trans (by rfl)⟩

/-- C8 (counterexample): the curated pipeline does not count per-entry
failures: appending a failing entry (missing `resources`) to a run leaves
every accumulated quantity — the generated count and the category set —
identical to the run without it; only the error log differs.  Under the
claim, some failure count would have to change. -/
theorem c8_counterexample :
    (Catalog.mainLoopFrom ⟨0, [], []⟩ [(fxFirefox, true), (fxBroken, true)]).generated
      = (Catalog.mainLoopFrom ⟨0, [], []⟩ [(fxFirefox, true)]).generated ∧
    (Catalog.mainLoopFrom ⟨0, [], []⟩ [(fxFirefox, true), (fxBroken, true)]).categories
      = (Catalog.mainLoopFrom ⟨0, [], []⟩ [(fxFirefox, true)]).categories ∧
    (Catalog.mainLoopFrom ⟨0, [], []⟩ [(fxFirefox, true), (fxBroken, true)]).stderrLines
      = ["✗ Error generating template for broken: KeyError: resources"] :=
  ⟨rfl, rfl, rfl⟩

/-- C8 (amended): in both pipelines a per-entry failure is caught,
reported to the error stream with a line naming the offending entry, and
does not abort the run — every entry of the list is processed and the
process exits with code 0; the remote pipeline counts each failure in its
`skipped` counter, while the curated pipeline keeps no failure count. -/
theorem c8_per_entry_failure_handling (images : List (Templates.Image × Bool))
    (apps : List (Catalog.App × Bool)) :
    (Templates.mainLoopFrom ⟨0, 0, []⟩ images).generated
      = (images.filter Templates.entrySuccess).length ∧
    (Templates.mainLoopFrom ⟨0, 0, []⟩ images).skipped
      = (images.filter fun e => !Templates.entrySuccess e).length ∧
    (Templates.mainLoopFrom ⟨0, 0, []⟩ images).stderrLines
      = (images.filter Templates.entryFailed).map Templates.errLine ∧
    (Templates.main (.ok images)).exitCode = 0 ∧
    (Catalog.mainLoopFrom ⟨0, [], []⟩ apps).generated
      = (apps.filter Catalog.entrySuccess).length ∧
    (Catalog.mainLoopFrom ⟨0, [], []⟩ apps).stderrLines
      = (apps.filter fun e => !Catalog.entrySuccess e).map Catalog.errLine ∧
    (Catalog.main "scripts/popular-apps.json" "manifests/templates-generated"
        (.ok apps)).exitCode = 0 := by
  refine ⟨?_, ?_, ?_, rfl, ?_, ?_, rfl⟩
  · simpa using remote_loop_generated images ⟨0, 0, []⟩
  · simpa using remote_loop_skipped images ⟨0, 0, []⟩
  · simpa using remote_loop_stderr images ⟨0, 0, []⟩
  · simpa using catalog_loop_generated apps ⟨0, [], []⟩
  · simpa using catalog_loop_stderr apps ⟨0, [], []⟩

/-- C8 (witness): the amended theorem at a concrete failing write in the
remote pipeline and a concrete synthesis failure in the curated one. -/
theorem c8_per_entry_failure_handling_witness :
    (Catalog.mainLoopFrom ⟨0, [], []⟩ [(fxFirefox, true), (fxBroken, true)]).stderrLines
      = [Catalog.errLine (fxBroken, true)] ∧
    (Templates.mainLoopFrom ⟨0, 0, []⟩ [(fxKasm, false)]).skipped = 1 ∧
    (Templates.main (.ok [(fxKasm, false)])).exitCode = 0 := by
  have h := c8_per_entry_failure_handling [(fxKasm, false)] [(fxFirefox, true), (fxBroken, true)]
  exact ⟨h.2.2.2.2.2.1.trans (by rfl), h.2.1.trans (by rfl), h.2.2.2.1⟩

/-- C9: when the curated catalog file does not exist, the run prints one
error line that mentions the path, exits with code 1, and creates no
output directory. -/
theorem c9_missing_catalog (catalogPath outputDir : String) :
    (Catalog.main catalogPath outputDir .missing).exitCode = 1 ∧
    (Catalog.main catalogPath outputDir .missing).stderrLines
      = ["Error: Catalog file not found: " ++ catalogPath] ∧
    (Catalog.main catalogPath outputDir .missing).dirsCreated = [] :=
  ⟨rfl, rfl, rfl⟩

/-- C9 (witness): the theorem at the default catalog path and output
directory. -/
theorem c9_missing_catalog_witness :
    (Catalog.main "scripts/popular-apps.json" "manifests/templates-generated"
        .missing).exitCode = 1 ∧
    (Catalog.main "scripts/popular-apps.json" "manifests/templates-generated"
        .missing).stderrLines
      = ["Error: Catalog file not found: scripts/popular-apps.json"] ∧
    (Catalog.main "scripts/popular-apps.json" "manifests/templates-generated"
        .missing).dirsCreated = [] := by
  have h := c9_missing_catalog "scripts/popular-apps.json" "manifests/templates-generated"
  exact ⟨h.1, h.2.1.trans (by rfl), h.2.2⟩

/-- C10: the remote orchestrator's skip test matches only the exact
lowercased raw name: `should_skip "kasm"` is true, but an entry named
`"linuxserver/kasm"` is not skipped (it is generated), even though the
synthesizer's own special-config lookup for that entry — which converts
`/` to `-` and strips `linuxserver-` — does resolve to the `"kasm"` entry
and uses its description. -/
theorem c10_skip_test_exact_name :
    Templates.should_skip "kasm" = true ∧
    Templates.should_skip (pyLower "linuxserver/kasm") = false ∧
    (Templates.mainLoopFrom ⟨0, 0, []⟩ [(fxKasm, true)]).skipped = 0 ∧
    (Templates.mainLoopFrom ⟨0, 0, []⟩ [(fxKasm, true)]).generated = 1 ∧
    (Templates.generate_template fxKasm).description
      = "Kasm Workspaces platform for streaming containerized apps and desktops to the browser." :=
  ⟨rfl, rfl, rfl, rfl, rfl⟩

end StreamSpace
